import Mathlib

/-
Shallow embedding of the triage/batching core of `src/task_bot.py`:
the TaskBot CRUD store, the pending-attachment session map, the media-group
assembler, and the forwarded-message batch aggregator, together with
theorems settling the specification claims about them.

Python dicts keyed by user-id strings are modelled as association lists;
`datetime.now()` / `time.time()` values are passed in explicitly as `Nat`
timestamps (seconds for the session logic, milliseconds for task ids, as in
the source).  Fallible lookups return `Option`.  Logging-only data (the
`debug` list of extracted records) is omitted.
-/

namespace TaskBotModel

/-- One media attachment descriptor, as produced by
`extract_task_from_message` (src/task_bot.py lines 1228-1284): a dict with a
`type` tag and a payload reference (`file_id` etc.).  The batching logic
treats the payload opaquely, so it is modelled as a single string. -/
structure MediaItem where
  kind : String
  payload : String
deriving DecidableEq

/-- A task's `media_info` field: either a single descriptor dict, or the
`{"type": "multiple", "items": [...]}` wrapper built at
src/task_bot.py lines 1096-1099, 1472-1475 and 1630-1633. -/
inductive MediaInfo where
  | single (item : MediaItem)
  | multiple (items : List MediaItem)
deriving DecidableEq

/-- Lookup in an association list, modelling `d.get(k)` /
`k in d` on a Python dict keyed by strings. -/
def alGet {α : Type} (m : List (String × α)) (k : String) : Option α :=
  match m with
  | [] => none
  | (k1, v) :: rest => if k1 = k then some v else alGet rest k

/-- Update/insert in an association list, modelling `d[k] = v`. -/
def alSet {α : Type} (m : List (String × α)) (k : String) (v : α) :
    List (String × α) :=
  match m with
  | [] => [(k, v)]
  | (k1, v1) :: rest =>
    if k1 = k then (k1, v) :: rest else (k1, v1) :: alSet rest k v

/-- Deletion from an association list, modelling `del d[k]`. -/
def alDel {α : Type} (m : List (String × α)) (k : String) :
    List (String × α) :=
  match m with
  | [] => []
  | (k1, v1) :: rest =>
    if k1 = k then rest else (k1, v1) :: alDel rest k

theorem alGet_alSet_self {α : Type} (m : List (String × α)) (k : String)
    (v : α) : alGet (alSet m k v) k = some v := by
  induction m with
  | nil => simp [alSet, alGet]
  | cons p rest ih =>
    obtain ⟨k1, v1⟩ := p
    by_cases h : k1 = k
    · simp [alSet, alGet, h]
    · simp [alSet, alGet, h, ih]

/-- A task record, as built by `TaskBot.add_task`
(src/task_bot.py lines 142-151).  `status` is the string
`"pending"` or `"completed"`; timestamps are `Nat`. -/
structure Task where
  id : Nat
  text : String
  status : String
  created_at : Nat
  completed_at : Option Nat
  message_link : Option String
  message_id : Option Nat
  media_info : Option MediaInfo
deriving DecidableEq

/-- The TaskBot store state: `self.tasks` and `self.archived_tasks`, each a
dict from user-id string to a list of task records; an archived record is a
task plus its `archived_at` timestamp (src/task_bot.py line 209). -/
structure TaskBot where
  tasks : List (String × List Task)
  archived_tasks : List (String × List (Task × Nat))
deriving DecidableEq

/-- `TaskBot.get_next_task_id` (src/task_bot.py lines 92-94): the id is the
current clock reading in milliseconds, `int(time.time() * 1000)`. -/
def get_next_task_id (nowMs : Nat) : Nat :=
  nowMs

/-- `TaskBot.get_user_tasks` (src/task_bot.py lines 126-128). -/
def get_user_tasks (bot : TaskBot) (user : String) : List Task :=
  (alGet bot.tasks user).getD []

/-- `TaskBot.add_task` (src/task_bot.py lines 130-158): creates the user's
list if absent, appends a fresh `pending` task whose id is the
millisecond timestamp, and returns it. -/
def add_task (bot : TaskBot) (user : String) (task_text : String)
    (message_link : Option String) (message_id : Option Nat)
    (media_info : Option MediaInfo) (nowMs : Nat) : TaskBot × Task :=
  let cur := (alGet bot.tasks user).getD []
  let task : Task :=
    { id := get_next_task_id nowMs
      text := task_text
      status := "pending"
      created_at := nowMs
      completed_at := none
      message_link := message_link
      message_id := message_id
      media_info := media_info }
  ({ bot with tasks := alSet bot.tasks user (cur ++ [task]) }, task)

/-- The loop body of `TaskBot.complete_task` (src/task_bot.py lines
162-169): walk the user's list and mutate the FIRST task whose id matches,
setting `status = "completed"` and overwriting `completed_at`; report
whether a match was found. -/
def completeFirst (l : List Task) (task_id : Nat) (now : Nat) :
    List Task × Bool :=
  match l with
  | [] => ([], false)
  | t :: rest =>
    if t.id = task_id then
      ({ t with status := "completed", completed_at := some now } :: rest,
       true)
    else
      let r := completeFirst rest task_id now
      (t :: r.1, r.2)

/-- `TaskBot.complete_task` (src/task_bot.py lines 160-169). -/
def complete_task (bot : TaskBot) (user : String) (task_id : Nat)
    (now : Nat) : TaskBot × Bool :=
  match alGet bot.tasks user with
  | none => (bot, false)
  | some l =>
    let r := completeFirst l task_id now
    ({ bot with tasks := alSet bot.tasks user r.1 }, r.2)

/-- `TaskBot.delete_task` (src/task_bot.py lines 171-181).  Faithful to the
source: whenever the user key exists in `self.tasks` the function filters
the list and returns `True`, WITHOUT checking that any task actually had
the given id; it returns `False` only when the user has no list at all. -/
def delete_task (bot : TaskBot) (user : String) (task_id : Nat) :
    TaskBot × Bool :=
  match alGet bot.tasks user with
  | none => (bot, false)
  | some l =>
    ({ bot with
        tasks := alSet bot.tasks user (l.filter (fun t => t.id != task_id)) },
     true)

/-- `TaskBot.archive_task` (src/task_bot.py lines 183-213): find the first
task with the given id AND status `"completed"`; if none, return `False`
unchanged; otherwise remove every task with that id from the live list and
append the found task, stamped `archived_at = now`, to the archive. -/
def archive_task (bot : TaskBot) (user : String) (task_id : Nat)
    (now : Nat) : TaskBot × Bool :=
  match alGet bot.tasks user with
  | none => (bot, false)
  | some l =>
    match l.find? (fun t => t.id == task_id && t.status == "completed") with
    | none => (bot, false)
    | some t =>
      let live := l.filter (fun t2 => t2.id != task_id)
      let arch := (alGet bot.archived_tasks user).getD []
      ({ tasks := alSet bot.tasks user live
         archived_tasks := alSet bot.archived_tasks user (arch ++ [(t, now)]) },
       true)

/-- Membership of a task id in a user's live task list. -/
def inLive (bot : TaskBot) (user : String) (task_id : Nat) : Bool :=
  (get_user_tasks bot user).any (fun t => t.id == task_id)

/-- Membership of a task id in a user's archived task list. -/
def inArchived (bot : TaskBot) (user : String) (task_id : Nat) : Bool :=
  ((alGet bot.archived_tasks user).getD []).any (fun p => p.1.id == task_id)

/-- One entry of `pending_add_attachments` (src/task_bot.py lines 44,
1436-1440): a per-user accumulator with an `active` flag, the ordered list
of collected descriptor dicts, and `start_time`. -/
structure PendingSession where
  active : Bool
  attachments : List MediaItem
  start_time : Nat
deriving DecidableEq

/-- The `pending_add_attachments` dict, keyed by user-id string. -/
abbrev PendingMap : Type :=
  List (String × PendingSession)

/-- The draft a flushed forward batch stores for its confirmation prompt
(`context.user_data`, src/task_bot.py lines 1109-1116): the combined
content, the first link (the link-collecting loop is commented out in the
source at lines 1076-1077, so this is always `none`), the first collected
message id, and the combined media wrapper. -/
structure FlushDraft where
  task_content : String
  first_link : Option String
  first_message_id : Option Nat
  combined_media_info : Option MediaInfo
deriving DecidableEq

/-- The user-visible outcome of one triage step: the confirmation prompt
with its stored draft and shown message count (src/task_bot.py lines
1126-1133), the per-attachment acknowledgment (lines 1447-1451), the
batch acknowledgment (lines 1045-1049), the empty-batch reply (line 1059),
or the unprocessable-media reply (line 1453). -/
inductive BotReply where
  | confirmationPrompt (count : Nat) (draft : FlushDraft)
  | attachmentAdded (total : Nat)
  | addedToBatch
  | noForwardedMessages
  | unableToProcess
deriving DecidableEq

/-- Whether a reply is the accept/cancel confirmation prompt. -/
def BotReply.isConfirmation : BotReply → Bool
  | .confirmationPrompt _ _ => true
  | _ => false

/-- The fields of an incoming media message that `handle_media` reads:
`message.media_group_id` and the extracted `media_info`
(src/task_bot.py lines 1425, 1431). -/
structure MediaMsg where
  media_group_id : Option String
  media_info : Option MediaItem
deriving DecidableEq

/-- `handle_media` (src/task_bot.py lines 1418-1453), the handler every
media message is routed to (lines 2246-2255).  Note that in the source
`media_group_id` is read and logged (lines 1425-1428) but then IGNORED:
the function never touches the `media_groups` dict and never schedules a
delayed finalize.  If the extraction yielded media, the user's
`pending_add_attachments` entry is created when MISSING (with
`active = True`), the descriptor is appended, `start_time` is refreshed,
and an attachment-count acknowledgment is sent; an existing entry's
`active` flag is left as it was. -/
def handle_media (st : PendingMap) (user : String) (msg : MediaMsg)
    (now : Nat) : PendingMap × BotReply :=
  match msg.media_info with
  | none => (st, .unableToProcess)
  | some item =>
    match alGet st user with
    | none =>
      (alSet st user ⟨true, [item], now⟩, .attachmentAdded 1)
    | some s =>
      let s1 : PendingSession := ⟨s.active, s.attachments ++ [item], now⟩
      (alSet st user s1, .attachmentAdded s1.attachments.length)

/-- `process_pending_attachments` (src/task_bot.py lines 1611-1639), the
`consume` drain: `none` when the user has no entry or the entry is
inactive; with zero attachments, deactivate and return `none`; with one,
deactivate, clear, and return the descriptor itself; with more, deactivate,
clear, and return the `multiple` wrapper over the list in arrival order. -/
def process_pending_attachments (st : PendingMap) (user : String) :
    PendingMap × Option MediaInfo :=
  match alGet st user with
  | none => (st, none)
  | some s =>
    if s.active = false then (st, none)
    else
      match s.attachments with
      | [] => (alSet st user ⟨false, [], s.start_time⟩, none)
      | [a] => (alSet st user ⟨false, [], s.start_time⟩, some (.single a))
      | items => (alSet st user ⟨false, [], s.start_time⟩,
                  some (.multiple items))

/-- One entry of the `media_groups` dict (src/task_bot.py line 45), as the
finalizers at lines 1465-1467 and 1552-1556 expect it: owner, items,
chat and anchor message references.  NOTE: no statement in
src/task_bot.py ever inserts into `media_groups`; only
`delayed_process_media_group` (line 1534) and `cleanup_media_groups`
(line 2163) delete from it. -/
structure MediaGroupData where
  user_id : String
  items : List MediaItem
  chat_id : Nat
  message_id : Nat
deriving DecidableEq

/-- The `media_groups` dict, keyed by provider-assigned group id. -/
abbrev MediaGroupMap : Type :=
  List (String × MediaGroupData)

/-- Outcome of the media-group finalizer: the error-logged early return
when the group id is absent (src/task_bot.py lines 1461-1463), or the
combined `multiple` wrapper raised as a confirmation prompt
(lines 1472-1530). -/
inductive GroupResult where
  | groupMissing
  | groupFinalized (combined : MediaInfo)
deriving DecidableEq

/-- `delayed_process_media_group` (src/task_bot.py lines 1455-1544), run
after the settle delay: if the group id is not in `media_groups`, log an
error and return; otherwise wrap the buffered items as a `multiple`
media_info, raise the prompt, and delete the buffer.  In the source this
coroutine is never scheduled (no caller exists), so on the actual — always
empty — `media_groups` dict it could only take the error branch. -/
def delayed_process_media_group (groups : MediaGroupMap) (gid : String) :
    MediaGroupMap × GroupResult :=
  match alGet groups gid with
  | none => (groups, .groupMissing)
  | some g => (alDel groups gid, .groupFinalized (.multiple g.items))

/-- One extracted forwarded-message record, as returned by
`extract_task_from_message` (src/task_bot.py lines 1289-1296) and consumed
by the batch logic: `content` is `""` when nothing was extracted (Python
then skips it by truthiness), `message_id` is the raw id (skipped by
truthiness when 0).  The logging-only `debug` and `source_type` fields are
omitted. -/
structure FwdRecord where
  content : String
  link : Option String
  message_id : Nat
  media_info : Option MediaItem
deriving DecidableEq

/-- One entry of `pending_forwarded_messages`
(src/task_bot.py lines 1018-1023). -/
structure FwdBatch where
  messages : List FwdRecord
  last_time : Option Nat
  start_time : Nat
deriving DecidableEq

/-- The `pending_forwarded_messages` dict, keyed by user-id string. -/
abbrev FwdMap : Type :=
  List (String × FwdBatch)

/-- The `combined_content` collection of the flush loop
(src/task_bot.py lines 1069-1071): contents that are truthy, i.e.
non-empty strings. -/
def nonEmptyContents (msgs : List FwdRecord) : List String :=
  msgs.filterMap (fun r => if r.content = "" then none else some r.content)

/-- The `message_ids` collection of the flush loop
(src/task_bot.py lines 1072-1073): ids that are truthy, i.e. nonzero. -/
def collectedMessageIds (msgs : List FwdRecord) : List Nat :=
  msgs.filterMap (fun r => if r.message_id = 0 then none else some r.message_id)

/-- The `media_infos` collection of the flush loop
(src/task_bot.py lines 1074-1075). -/
def collectedMedia (msgs : List FwdRecord) : List MediaItem :=
  msgs.filterMap (fun r => r.media_info)

/-- The draft assembled by `process_forwarded_messages_batch`
(src/task_bot.py lines 1062-1116): contents joined with the visible
separator, the first link (always absent, lines 1076-1077 and 1091), the
first collected message id, and all media in a `multiple` wrapper (omitted
entirely when no record carried media). -/
def mkFlushDraft (msgs : List FwdRecord) : FlushDraft :=
  { task_content := String.intercalate "\n---\n" (nonEmptyContents msgs)
    first_link := none
    first_message_id := (collectedMessageIds msgs).head?
    combined_media_info :=
      match collectedMedia msgs with
      | [] => none
      | items => some (.multiple items) }

/-- `process_forwarded_messages_batch` (src/task_bot.py lines 1051-1136)
restricted to one user's batch record: on an empty message list, reply
that there is nothing to process; otherwise raise the confirmation prompt
carrying the assembled draft and the message count, then clear the
batch's message list (line 1136) — `last_time` is NOT reset. -/
def process_forwarded_messages_batch (b : FwdBatch) : FwdBatch × BotReply :=
  if b.messages = [] then (b, .noForwardedMessages)
  else ({ b with messages := [] },
        .confirmationPrompt b.messages.length (mkFlushDraft b.messages))

/-- `handle_forwarded_message` (src/task_bot.py lines 1009-1049): create
the user's batch record if missing; compute `is_continuation` (true when
there is no previous `last_time`, else when the elapsed time is under 30
seconds); then — BEFORE the continuation check is acted on — set
`last_time = now` and APPEND the new record (lines 1037-1038); finally,
if this was not a continuation or the batch has reached 10 messages,
process the whole (post-append) batch, else acknowledge. -/
def handle_forwarded_message (st : FwdMap) (user : String) (rec : FwdRecord)
    (now : Nat) : FwdMap × BotReply :=
  let b0 : FwdBatch :=
    match alGet st user with
    | none => { messages := [], last_time := none, start_time := now }
    | some b => b
  let is_continuation : Bool :=
    match b0.last_time with
    | none => true
    | some t => decide (now - t < 30)
  let b1 : FwdBatch :=
    { b0 with last_time := some now, messages := b0.messages ++ [rec] }
  if is_continuation = false ∨ 10 ≤ b1.messages.length then
    let r := process_forwarded_messages_batch b1
    (alSet st user r.1, r.2)
  else
    (alSet st user b1, .addedToBatch)


/-- Claim C1 counterexample: with forwards F1 at t=0, F2 at t=10 and F3 at
t=45 for the same user, the flush triggered by F3 carries the contents of
all THREE records (the trigger included), and the new batch is left EMPTY
rather than seeded with F3. -/
theorem forward_flush_includes_trigger_cex :
    let r1 := handle_forwarded_message [] "1" ⟨"F1", none, 1, none⟩ 0
    let r2 := handle_forwarded_message r1.1 "1" ⟨"F2", none, 2, none⟩ 10
    let r3 := handle_forwarded_message r2.1 "1" ⟨"F3", none, 3, none⟩ 45
    r1.2 = BotReply.addedToBatch ∧
    r2.2 = BotReply.addedToBatch ∧
    r3.2 = BotReply.confirmationPrompt 3
      ⟨"F1\n---\nF2\n---\nF3", none, some 1, none⟩ ∧
    alGet r3.1 "1" = some ⟨[], some 45, 0⟩ ∧
    alGet r3.1 "1" ≠ some ⟨[⟨"F3", none, 3, none⟩], some 45, 0⟩ := by
  decide

/-- Claim C2: three media messages sharing media_group_id "G1" are each
handled as an independent message by `handle_media` (separate
per-attachment acknowledgments, all three descriptors appended one by one
to the pending-attachment session, no confirmation prompt); and the
finalizer, run against the `media_groups` dict — which no code in the
source ever populates, so it is empty — takes its group-missing error
branch. -/
theorem media_group_items_handled_independently :
    (handle_media [] "1" ⟨some "G1", some ⟨"photo", "pA"⟩⟩ 0).2 = BotReply.attachmentAdded 1 ∧
    (handle_media (handle_media [] "1" ⟨some "G1", some ⟨"photo", "pA"⟩⟩ 0).1 "1" ⟨some "G1", some ⟨"photo", "pB"⟩⟩ 0).2 = BotReply.attachmentAdded 2 ∧
    (handle_media (handle_media (handle_media [] "1" ⟨some "G1", some ⟨"photo", "pA"⟩⟩ 0).1 "1" ⟨some "G1", some ⟨"photo", "pB"⟩⟩ 0).1 "1" ⟨some "G1", some ⟨"photo", "pC"⟩⟩ 1).2 = BotReply.attachmentAdded 3 ∧
    BotReply.isConfirmation (handle_media [] "1" ⟨some "G1", some ⟨"photo", "pA"⟩⟩ 0).2 = false ∧
    BotReply.isConfirmation (handle_media (handle_media [] "1" ⟨some "G1", some ⟨"photo", "pA"⟩⟩ 0).1 "1" ⟨some "G1", some ⟨"photo", "pB"⟩⟩ 0).2 = false ∧
    BotReply.isConfirmation (handle_media (handle_media (handle_media [] "1" ⟨some "G1", some ⟨"photo", "pA"⟩⟩ 0).1 "1" ⟨some "G1", some ⟨"photo", "pB"⟩⟩ 0).1 "1" ⟨some "G1", some ⟨"photo", "pC"⟩⟩ 1).2 = false ∧
    alGet (handle_media (handle_media (handle_media [] "1" ⟨some "G1", some ⟨"photo", "pA"⟩⟩ 0).1 "1" ⟨some "G1", some ⟨"photo", "pB"⟩⟩ 0).1 "1" ⟨some "G1", some ⟨"photo", "pC"⟩⟩ 1).1 "1" =
      some ⟨true, [⟨"photo", "pA"⟩, ⟨"photo", "pB"⟩, ⟨"photo", "pC"⟩], 1⟩ ∧
    delayed_process_media_group [] "G1" = ([], GroupResult.groupMissing) := by
  decide

/-- Claim C3 counterexample: a media message from a user with no
pending-attachment session at all does NOT get a confirmation prompt; it
silently creates an active session holding the descriptor and is answered
with an attachment-count acknowledgment. -/
theorem media_without_session_no_prompt_cex :
    handle_media [] "7" ⟨none, some ⟨"photo", "p1"⟩⟩ 3 =
      ([("7", ⟨true, [⟨"photo", "p1"⟩], 3⟩)], BotReply.attachmentAdded 1) ∧
    BotReply.isConfirmation
      (handle_media [] "7" ⟨none, some ⟨"photo", "p1"⟩⟩ 3).2 = false := by
  decide

/-- Claim C7: `delete_task` called with id 2, which does not occur in the
user's task list (the list holds only id 100), reports SUCCESS (`true`,
surfaced to the user as "deleted successfully") while the store is
unchanged — the source only checks that the user key exists. -/
theorem delete_missing_id_reports_success :
    delete_task
      ⟨[("1", [⟨100, "buy milk", "pending", 1, none, none, none, none⟩])], []⟩
      "1" 2 =
    (⟨[("1", [⟨100, "buy milk", "pending", 1, none, none, none, none⟩])], []⟩,
     true) := by
  decide

/-- Claim C8 counterexample: two `add_task` calls for the same user at the
SAME millisecond timestamp produce two distinct tasks in the list that
share one id — the timestamp-derived id is not checked for uniqueness. -/
theorem task_id_collision_same_millisecond_cex :
    let r1 := add_task ⟨[], []⟩ "1" "a" none none none 5
    let r2 := add_task r1.1 "1" "b" none none none 5
    r1.2 ≠ r2.2 ∧
    r1.2.id = r2.2.id ∧
    get_user_tasks r2.1 "1" = [r1.2, r2.2] := by
  decide

/-- Claim C8 as amended: task ids equal the millisecond timestamp of the
`add_task` call, so any two tasks created at distinct clock readings have
distinct ids (in particular an id is never reused after a deletion once
the clock has advanced). -/
theorem task_ids_differ_for_distinct_times (b1 b2 : TaskBot)
    (u1 u2 s1 s2 : String) (t1 t2 : Nat) (h : t1 ≠ t2) :
    (add_task b1 u1 s1 none none none t1).2.id ≠
      (add_task b2 u2 s2 none none none t2).2.id := by
  simpa [add_task, get_next_task_id] using h

theorem task_ids_differ_for_distinct_times_witness :
    (1 : Nat) ≠ 2 ∧
    (add_task ⟨[], []⟩ "1" "a" none none none 1).2.id ≠
      (add_task ⟨[], []⟩ "1" "a" none none none 2).2.id :=
  ⟨by decide,
   task_ids_differ_for_distinct_times ⟨[], []⟩ ⟨[], []⟩ "1" "1" "a" "a" 1 2
     (by decide)⟩


/-- Claim C3 as amended: a media-carrying message from a user with no
pending-attachment record silently starts a new ACTIVE session holding
that descriptor and is answered with an attachment-count acknowledgment —
never with a confirmation prompt. -/
theorem media_without_session_starts_collection (st : PendingMap)
    (u : String) (msg : MediaMsg) (item : MediaItem) (now : Nat)
    (hm : msg.media_info = some item) (h : alGet st u = none) :
    handle_media st u msg now =
      (alSet st u ⟨true, [item], now⟩, BotReply.attachmentAdded 1) ∧
    BotReply.isConfirmation (handle_media st u msg now).2 = false := by
  constructor
  · simp [handle_media, hm, h]
  · simp [handle_media, hm, h, BotReply.isConfirmation]

theorem media_without_session_starts_collection_witness :
    (MediaMsg.mk none (some ⟨"doc", "d1"⟩)).media_info = some ⟨"doc", "d1"⟩ ∧
    alGet ([] : PendingMap) "9" = none ∧
    (handle_media [] "9" ⟨none, some ⟨"doc", "d1"⟩⟩ 4 =
       (alSet [] "9" ⟨true, [⟨"doc", "d1"⟩], 4⟩, BotReply.attachmentAdded 1) ∧
     BotReply.isConfirmation
       (handle_media [] "9" ⟨none, some ⟨"doc", "d1"⟩⟩ 4).2 = false) :=
  ⟨rfl, rfl,
   media_without_session_starts_collection [] "9" ⟨none, some ⟨"doc", "d1"⟩⟩
     ⟨"doc", "d1"⟩ 4 rfl rfl⟩

/-- Claim C4: consuming a user's ACTIVE pending-attachment session returns
`none` for zero attachments, the single descriptor unwrapped for exactly
one, and the `multiple` wrapper over the attachment list itself (same
length, same arrival order) for more; in every case the stored session
ends up deactivated with an empty attachment list, so an immediately
repeated consume returns `none` and changes nothing. -/
theorem consume_drains_session (st : PendingMap) (u : String)
    (s : PendingSession) (h : alGet st u = some s) (ha : s.active = true) :
    (process_pending_attachments st u).2 =
      (match s.attachments with
       | [] => none
       | [a] => some (MediaInfo.single a)
       | items => some (MediaInfo.multiple items)) ∧
    alGet (process_pending_attachments st u).1 u =
      some ⟨false, [], s.start_time⟩ ∧
    process_pending_attachments (process_pending_attachments st u).1 u =
      ((process_pending_attachments st u).1, none) := by
  obtain ⟨act, atts, t0⟩ := s
  simp only at ha
  subst ha
  cases atts with
  | nil =>
    refine ⟨?_, ?_, ?_⟩ <;>
      simp [process_pending_attachments, h, alGet_alSet_self]
  | cons a rest =>
    cases rest with
    | nil =>
      refine ⟨?_, ?_, ?_⟩ <;>
        simp [process_pending_attachments, h, alGet_alSet_self]
    | cons b rest2 =>
      refine ⟨?_, ?_, ?_⟩ <;>
        simp [process_pending_attachments, h, alGet_alSet_self]

theorem consume_drains_session_witness :
    alGet [("1", PendingSession.mk true [⟨"photo", "x"⟩, ⟨"doc", "y"⟩] 0)]
      "1" = some ⟨true, [⟨"photo", "x"⟩, ⟨"doc", "y"⟩], 0⟩ ∧
    (PendingSession.mk true [⟨"photo", "x"⟩, ⟨"doc", "y"⟩] 0).active = true ∧
    ((process_pending_attachments
        [("1", PendingSession.mk true [⟨"photo", "x"⟩, ⟨"doc", "y"⟩] 0)]
        "1").2 =
       some (MediaInfo.multiple [⟨"photo", "x"⟩, ⟨"doc", "y"⟩]) ∧
     alGet (process_pending_attachments
        [("1", PendingSession.mk true [⟨"photo", "x"⟩, ⟨"doc", "y"⟩] 0)]
        "1").1 "1" = some ⟨false, [], 0⟩ ∧
     process_pending_attachments
       (process_pending_attachments
          [("1", PendingSession.mk true [⟨"photo", "x"⟩, ⟨"doc", "y"⟩] 0)]
          "1").1 "1" =
       ((process_pending_attachments
           [("1", PendingSession.mk true [⟨"photo", "x"⟩, ⟨"doc", "y"⟩] 0)]
           "1").1, none)) :=
  ⟨rfl, rfl,
   consume_drains_session
     [("1", PendingSession.mk true [⟨"photo", "x"⟩, ⟨"doc", "y"⟩] 0)] "1"
     ⟨true, [⟨"photo", "x"⟩, ⟨"doc", "y"⟩], 0⟩ rfl rfl⟩

/-- Claim C9: when a user's pending-attachment record exists but is
INACTIVE, an incoming media message appends its descriptor to that record
without reactivating it, and a subsequent consume returns `none` without
ever draining those descriptors. -/
theorem inactive_session_swallows_attachments (st : PendingMap)
    (u : String) (s : PendingSession) (item : MediaItem) (now : Nat)
    (h : alGet st u = some s) (ha : s.active = false) :
    handle_media st u ⟨none, some item⟩ now =
      (alSet st u ⟨false, s.attachments ++ [item], now⟩,
       BotReply.attachmentAdded (s.attachments.length + 1)) ∧
    process_pending_attachments
        (alSet st u ⟨false, s.attachments ++ [item], now⟩) u =
      (alSet st u ⟨false, s.attachments ++ [item], now⟩, none) := by
  constructor
  · simp [handle_media, h, ha]
  · simp [process_pending_attachments, alGet_alSet_self]

theorem inactive_session_swallows_attachments_witness :
    alGet [("1", PendingSession.mk false [⟨"photo", "x"⟩] 0)] "1" =
      some ⟨false, [⟨"photo", "x"⟩], 0⟩ ∧
    (PendingSession.mk false [⟨"photo", "x"⟩] 0).active = false ∧
    (handle_media [("1", PendingSession.mk false [⟨"photo", "x"⟩] 0)] "1"
        ⟨none, some ⟨"doc", "y"⟩⟩ 8 =
       (alSet [("1", PendingSession.mk false [⟨"photo", "x"⟩] 0)] "1"
          ⟨false, [⟨"photo", "x"⟩, ⟨"doc", "y"⟩], 8⟩,
        BotReply.attachmentAdded 2) ∧
     process_pending_attachments
         (alSet [("1", PendingSession.mk false [⟨"photo", "x"⟩] 0)] "1"
            ⟨false, [⟨"photo", "x"⟩, ⟨"doc", "y"⟩], 8⟩) "1" =
       (alSet [("1", PendingSession.mk false [⟨"photo", "x"⟩] 0)] "1"
          ⟨false, [⟨"photo", "x"⟩, ⟨"doc", "y"⟩], 8⟩, none)) :=
  ⟨rfl, rfl,
   inactive_session_swallows_attachments
     [("1", PendingSession.mk false [⟨"photo", "x"⟩] 0)] "1"
     ⟨false, [⟨"photo", "x"⟩], 0⟩ ⟨"doc", "y"⟩ 8 rfl rfl⟩

/-- Claim C6: when every task in the user's list carrying the given id has
status other than `"completed"` (in particular when it is `"pending"`),
`archive_task` returns `false` and leaves the whole store — live and
archived collections alike — unchanged. -/
theorem archive_pending_fails_unchanged (bot : TaskBot) (u : String)
    (tid now : Nat)
    (h : (get_user_tasks bot u).all
           (fun t => !(t.id == tid) || t.status == "pending") = true) :
    archive_task bot u tid now = (bot, false) := by
  unfold archive_task
  cases hl : alGet bot.tasks u with
  | none => rfl
  | some l =>
    have hmem : ∀ t ∈ l, (!(t.id == tid) || t.status == "pending") = true := by
      have := List.all_eq_true.mp h
      intro t htl
      exact this t (by simpa [get_user_tasks, hl] using htl)
    have hf : l.find? (fun t => t.id == tid && t.status == "completed")
        = none := by
      apply List.find?_eq_none.mpr
      intro t htl hpred
      have hp := hmem t htl
      simp only [Bool.and_eq_true, beq_iff_eq] at hpred
      simp only [Bool.or_eq_true, Bool.not_eq_true', beq_iff_eq,
        beq_eq_false_iff_ne] at hp
      rcases hp with hne | hpend
      · exact hne hpred.1
      · rw [hpend] at hpred
        exact absurd hpred.2 (by decide)
    simp [hf]

theorem archive_pending_fails_unchanged_witness :
    (get_user_tasks
        ⟨[("1", [⟨100, "x", "pending", 1, none, none, none, none⟩])], []⟩
        "1").all
      (fun t => !(t.id == 100) || t.status == "pending") = true ∧
    archive_task
        ⟨[("1", [⟨100, "x", "pending", 1, none, none, none, none⟩])], []⟩
        "1" 100 9 =
      (⟨[("1", [⟨100, "x", "pending", 1, none, none, none, none⟩])], []⟩,
       false) :=
  ⟨by decide,
   archive_pending_fails_unchanged
     ⟨[("1", [⟨100, "x", "pending", 1, none, none, none, none⟩])], []⟩
     "1" 100 9 (by decide)⟩


theorem completeFirst_middle (pre post : List Task) (t : Task)
    (tid now : Nat) (hpre : ∀ x ∈ pre, (x.id == tid) = false)
    (ht : t.id = tid) :
    completeFirst (pre ++ t :: post) tid now =
      (pre ++ { t with status := "completed", completed_at := some now }
         :: post,
       true) := by
  induction pre with
  | nil => simp [completeFirst, ht]
  | cons c rest ih =>
    have hc : c.id ≠ tid := by
      simpa using hpre c (List.mem_cons_self c rest)
    have ih2 := ih (fun x hx => hpre x (List.mem_cons_of_mem c hx))
    simp [completeFirst, hc, ih2]

/-- Claim C10: calling `complete_task` on a task whose status is already
`"completed"` (and which is the first occurrence of its id in the list)
returns `true` and overwrites only its `completed_at` field with the
current time — status stays `"completed"`, every other field and every
other task is untouched. -/
theorem recomplete_overwrites_completed_at (bot : TaskBot) (u : String)
    (pre post : List Task) (t : Task) (now : Nat)
    (hl : alGet bot.tasks u = some (pre ++ t :: post))
    (hpre : pre.all (fun x => !(x.id == t.id)) = true)
    (hst : t.status = "completed") :
    complete_task bot u t.id now =
      ({ bot with
          tasks := alSet bot.tasks u
            (pre ++ { t with completed_at := some now } :: post) },
       true) := by
  have hpre2 : ∀ x ∈ pre, (x.id == t.id) = false := by
    have := List.all_eq_true.mp hpre
    intro x hx
    simpa using this x hx
  have hcf := completeFirst_middle pre post t t.id now hpre2 rfl
  have heq : { t with status := "completed", completed_at := some now } =
      { t with completed_at := some now } := by
    obtain ⟨i, tx, st0, ca, co, ml, mi, md⟩ := t
    simp only at hst
    subst hst
    rfl
  rw [heq] at hcf
  simp [complete_task, hl, hcf]

theorem recomplete_overwrites_completed_at_witness :
    alGet
        [("1", ([⟨7, "a", "pending", 1, none, none, none, none⟩,
                 ⟨9, "b", "completed", 2, some 3, none, none, none⟩] :
                  List Task))]
        "1" =
      some ([⟨7, "a", "pending", 1, none, none, none, none⟩] ++
        ⟨9, "b", "completed", 2, some 3, none, none, none⟩ :: []) ∧
    ([⟨7, "a", "pending", 1, none, none, none, none⟩] :
        List Task).all (fun x => !(x.id == 9)) = true ∧
    (⟨9, "b", "completed", 2, some 3, none, none, none⟩ : Task).status =
      "completed" ∧
    complete_task
        ⟨[("1", [⟨7, "a", "pending", 1, none, none, none, none⟩,
                 ⟨9, "b", "completed", 2, some 3, none, none, none⟩])], []⟩
        "1" 9 50 =
      (⟨[("1", [⟨7, "a", "pending", 1, none, none, none, none⟩,
                ⟨9, "b", "completed", 2, some 50, none, none, none⟩])], []⟩,
       true) :=
  ⟨rfl, by decide, rfl,
   recomplete_overwrites_completed_at
     ⟨[("1", [⟨7, "a", "pending", 1, none, none, none, none⟩,
              ⟨9, "b", "completed", 2, some 3, none, none, none⟩])], []⟩
     "1" [⟨7, "a", "pending", 1, none, none, none, none⟩] []
     ⟨9, "b", "completed", 2, some 3, none, none, none⟩ 50 rfl (by decide)
     rfl⟩

/-- Claim C1 as amended: when a user's forward batch was last touched 30 or
more seconds ago, the next forwarded message triggers a flush whose
confirmation prompt is built from the existing records WITH the triggering
record appended (shown count = previous size + 1), and the batch record is
left with an EMPTY message list and `last_time = now` — the trigger is
consumed by the flush, not carried into the next batch. -/
theorem forward_flush_after_timeout (st : FwdMap) (u : String)
    (b : FwdBatch) (rec : FwdRecord) (tl now : Nat)
    (hb : alGet st u = some b) (ht : b.last_time = some tl)
    (hel : 30 ≤ now - tl) :
    handle_forwarded_message st u rec now =
      (alSet st u ⟨[], some now, b.start_time⟩,
       BotReply.confirmationPrompt (b.messages.length + 1)
         (mkFlushDraft (b.messages ++ [rec]))) := by
  obtain ⟨msgs, lt, t0⟩ := b
  simp only at ht
  subst ht
  have hnl : ¬ (now - tl < 30) := Nat.not_lt.mpr hel
  simp [handle_forwarded_message, hb, hnl,
    process_forwarded_messages_batch]

theorem forward_flush_after_timeout_witness :
    alGet [("1", FwdBatch.mk [⟨"F1", none, 1, none⟩] (some 0) 0)] "1" =
      some ⟨[⟨"F1", none, 1, none⟩], some 0, 0⟩ ∧
    (FwdBatch.mk [⟨"F1", none, 1, none⟩] (some 0) 0).last_time = some 0 ∧
    (30 : Nat) ≤ 45 - 0 ∧
    handle_forwarded_message
        [("1", FwdBatch.mk [⟨"F1", none, 1, none⟩] (some 0) 0)] "1"
        ⟨"F2", none, 2, none⟩ 45 =
      (alSet [("1", FwdBatch.mk [⟨"F1", none, 1, none⟩] (some 0) 0)] "1"
         ⟨[], some 45, 0⟩,
       BotReply.confirmationPrompt 2
         (mkFlushDraft [⟨"F1", none, 1, none⟩, ⟨"F2", none, 2, none⟩])) :=
  ⟨rfl, rfl, by decide,
   forward_flush_after_timeout
     [("1", FwdBatch.mk [⟨"F1", none, 1, none⟩] (some 0) 0)] "1"
     ⟨[⟨"F1", none, 1, none⟩], some 0, 0⟩ ⟨"F2", none, 2, none⟩ 0 45
     rfl rfl (by decide)⟩

theorem find_append_last {α : Type} (l : List α) (p : α → Bool)
    (h : ∀ x ∈ l, p x = false) (x : α) (hx : p x = true) :
    (l ++ [x]).find? p = some x := by
  induction l with
  | nil => simp [List.find?, hx]
  | cons c rest ih =>
    have hc := h c (List.mem_cons_self c rest)
    simp [List.find?, hc,
      ih (fun y hy => h y (List.mem_cons_of_mem c hy))]

/-- Claim C5: starting from any store in which the id `t1` occurs in
neither the user's live list nor their archive, the sequence
`add_task` (at time t1) then `complete_task` then `archive_task` keeps the
task in EXACTLY ONE of the two collections at every observation point:
live-only after add, live-only after complete, archive-only after archive
(and both the complete and the archive step report success). -/
theorem add_complete_archive_exclusive (b0 : TaskBot) (u s : String)
    (t1 t2 t3 : Nat)
    (hL : inLive b0 u t1 = false) (hA : inArchived b0 u t1 = false) :
    (add_task b0 u s none none none t1).2.id = t1 ∧
    (inLive (add_task b0 u s none none none t1).1 u t1 = true ∧
     inArchived (add_task b0 u s none none none t1).1 u t1 = false) ∧
    ((complete_task (add_task b0 u s none none none t1).1 u t1 t2).2 = true ∧
     inLive (complete_task (add_task b0 u s none none none t1).1 u t1 t2).1 u t1 = true ∧
     inArchived (complete_task (add_task b0 u s none none none t1).1 u t1 t2).1 u t1 = false) ∧
    ((archive_task (complete_task (add_task b0 u s none none none t1).1 u t1 t2).1 u t1 t3).2 = true ∧
     inLive (archive_task (complete_task (add_task b0 u s none none none t1).1 u t1 t2).1 u t1 t3).1 u t1 = false ∧
     inArchived (archive_task (complete_task (add_task b0 u s none none none t1).1 u t1 t2).1 u t1 t3).1 u t1 = true) := by
  have hcur : ∀ t ∈ (alGet b0.tasks u).getD [], (t.id == t1) = false := by
    intro t ht
    have hL2 : ((alGet b0.tasks u).getD []).any
        (fun x => x.id == t1) = false := by
      simpa only [inLive, get_user_tasks] using hL
    have h2 := List.any_eq_false.mp hL2 t ht
    simp only [Bool.not_eq_true] at h2
    exact h2
  have hadd : (add_task b0 u s none none none t1) =
      (⟨alSet b0.tasks u
          ((alGet b0.tasks u).getD [] ++
            [⟨t1, s, "pending", t1, none, none, none, none⟩]),
        b0.archived_tasks⟩,
       ⟨t1, s, "pending", t1, none, none, none, none⟩) := rfl
  have hcf : completeFirst
      ((alGet b0.tasks u).getD [] ++
        [⟨t1, s, "pending", t1, none, none, none, none⟩]) t1 t2 =
      ((alGet b0.tasks u).getD [] ++
        [⟨t1, s, "completed", t1, some t2, none, none, none⟩], true) :=
    completeFirst_middle ((alGet b0.tasks u).getD []) []
      ⟨t1, s, "pending", t1, none, none, none, none⟩ t1 t2 hcur rfl
  have hcomp : (complete_task (add_task b0 u s none none none t1).1 u t1 t2) =
      (⟨alSet
          (alSet b0.tasks u
            ((alGet b0.tasks u).getD [] ++
              [⟨t1, s, "pending", t1, none, none, none, none⟩])) u
          ((alGet b0.tasks u).getD [] ++
            [⟨t1, s, "completed", t1, some t2, none, none, none⟩]),
        b0.archived_tasks⟩,
       true) := by
    rw [hadd]
    simp [complete_task, alGet_alSet_self, hcf]
  have hfind : ((alGet b0.tasks u).getD [] ++
      ([⟨t1, s, "completed", t1, some t2, none, none, none⟩] :
        List Task)).find?
        (fun t => t.id == t1 && t.status == "completed") =
      some ⟨t1, s, "completed", t1, some t2, none, none, none⟩ := by
    apply find_append_last
    · intro x hx
      simp [hcur x hx]
    · simp
  have hfilter : ((alGet b0.tasks u).getD [] ++
      ([⟨t1, s, "completed", t1, some t2, none, none, none⟩] :
        List Task)).filter
        (fun t2x => t2x.id != t1) = (alGet b0.tasks u).getD [] := by
    rw [List.filter_append]
    have h1 : ((alGet b0.tasks u).getD []).filter
        (fun t2x => t2x.id != t1) = (alGet b0.tasks u).getD [] :=
      List.filter_eq_self.mpr
        (fun a ha => by simp only [bne, hcur a ha, Bool.not_false])
    simp [h1]
  have harch : (archive_task (complete_task (add_task b0 u s none none none t1).1 u t1 t2).1 u t1 t3) =
      (⟨alSet
          (alSet
            (alSet b0.tasks u
              ((alGet b0.tasks u).getD [] ++
                [⟨t1, s, "pending", t1, none, none, none, none⟩])) u
            ((alGet b0.tasks u).getD [] ++
              [⟨t1, s, "completed", t1, some t2, none, none, none⟩])) u
          ((alGet b0.tasks u).getD []),
        alSet b0.archived_tasks u
          ((alGet b0.archived_tasks u).getD [] ++
            [(⟨t1, s, "completed", t1, some t2, none, none, none⟩, t3)])⟩,
       true) := by
    rw [hcomp]
    simp only [archive_task, alGet_alSet_self, hfind, hfilter]
  refine ⟨by rw [hadd], ⟨?_, ?_⟩, ⟨?_, ?_, ?_⟩, ⟨?_, ?_, ?_⟩⟩
  · rw [hadd]
    simp [inLive, get_user_tasks, alGet_alSet_self]
  · rw [hadd]
    simpa [inArchived] using hA
  · rw [hcomp]
  · rw [hcomp]
    simp [inLive, get_user_tasks, alGet_alSet_self]
  · rw [hcomp]
    simpa [inArchived] using hA
  · rw [harch]
  · rw [harch]
    simp only [inLive, get_user_tasks, alGet_alSet_self, Option.getD_some]
    exact List.any_eq_false.mpr (fun x hx => by simp [hcur x hx])
  · rw [harch]
    simp [inArchived, alGet_alSet_self]

theorem add_complete_archive_exclusive_witness :
    inLive ⟨[], []⟩ "1" 77 = false ∧
    inArchived ⟨[], []⟩ "1" 77 = false ∧
    ((add_task ⟨[], []⟩ "1" "w" none none none 77).2.id = 77 ∧
     (inLive (add_task ⟨[], []⟩ "1" "w" none none none 77).1 "1" 77 = true ∧
      inArchived (add_task ⟨[], []⟩ "1" "w" none none none 77).1 "1" 77 =
        false) ∧
     ((complete_task (add_task ⟨[], []⟩ "1" "w" none none none 77).1 "1" 77
         78).2 = true ∧
      inLive (complete_task (add_task ⟨[], []⟩ "1" "w" none none none 77).1
          "1" 77 78).1 "1" 77 = true ∧
      inArchived
          (complete_task (add_task ⟨[], []⟩ "1" "w" none none none 77).1
            "1" 77 78).1 "1" 77 = false) ∧
     ((archive_task
          (complete_task (add_task ⟨[], []⟩ "1" "w" none none none 77).1
            "1" 77 78).1 "1" 77 79).2 = true ∧
      inLive
          (archive_task
            (complete_task (add_task ⟨[], []⟩ "1" "w" none none none 77).1
              "1" 77 78).1 "1" 77 79).1 "1" 77 = false ∧
      inArchived
          (archive_task
            (complete_task (add_task ⟨[], []⟩ "1" "w" none none none 77).1
              "1" 77 78).1 "1" 77 79).1 "1" 77 = true)) :=
  ⟨rfl, rfl,
   add_complete_archive_exclusive ⟨[], []⟩ "1" "w" 77 78 79 rfl rfl⟩

end TaskBotModel
